import Mathlib

/-!
Verification of fs.googledrivefs (src/fs/googledrivefs/googledrivefs.py)
against its natural-language specification.

The adapter maps a filesystem interface onto the Google Drive API. The
backend is an external collaborator: we model it as an oracle giving, for
each query string, the paginated list of matching object records, plus a
get-by-id lookup. All definitions below are shallow embeddings of the
Python source; paths are represented by their segment lists (the output of
`iteratepath`), timestamps are carried as their raw RFC 3339 wire strings
(epoch conversion happens in the external `fs.time` library), and file
contents are byte lists.
-/

/-- Errors raised by the adapter: the `fs.errors` classes it imports, the
`RuntimeError` of `_childByName`, and the backend's `HttpError`. Payloads
(the offending path) are dropped; only the error class matters here. -/
inductive DriveErr where
  | resourceNotFound
  | fileExists
  | directoryExists
  | fileExpected
  | directoryExpected
  | directoryNotEmpty
  | destinationExists
  | removeRootError
  | runtimeError
  | operationFailed
  | httpError
  deriving DecidableEq, Repr

/-- One backend object record (Drive `files` resource), with exactly the
fields `_ALL_FIELDS` requests and `_InfoFromMetadata` reads. Optional
fields model optional keys of the Python dict; `_rootMetadata` is the
literal `{'id': 'root', 'mimeType': folderMimeType}`, so every other field
defaults to absent. -/
structure Metadata where
  id : String
  mimeType : String
  name : Option String := none
  createdTime : Option String := none
  modifiedTime : Option String := none
  size : Option Int := none
  permissions : Option (List String) := none
  md5Checksum : Option String := none
  indexableText : Option String := none
  appProperties : Option (List (String × String)) := none
  deriving DecidableEq, Repr

def folderMimeType : String := "application/vnd.google-apps.folder"

def shortcutMimeType : String := "application/vnd.google-apps.shortcut"

/-- The synthetic root record `_rootMetadata = {'id': 'root', 'mimeType': _folderMimeType}`. -/
def rootMetadata : Metadata := { id := "root", mimeType := folderMimeType }

def isFolder (m : Metadata) : Bool := m.mimeType == folderMimeType

def bslash : Char := '\\'

def squote : Char := '\''

/-- Python's `str.replace` for a single-character needle: every occurrence
of `c` is replaced by `r`, left to right. -/
def pyReplaceChar (c : Char) (r : List Char) : List Char → List Char
  | [] => []
  | x :: xs => (if x = c then r else [x]) ++ pyReplaceChar c r xs

/-- `_Escape`: first `name.replace('\\', '\\\\')`, then the result gets
every single quote replaced by backslash-quote. -/
def escapeName (s : String) : String :=
  String.mk (pyReplaceChar squote [bslash, squote] (pyReplaceChar bslash [bslash, bslash] s.data))

/-- Modelled from the spec: escaping "doubles backslashes and escapes
single quotes", read as one character-wise pass over the name. Compared
with the source's sequential-replace `escapeName`. -/
def escapeSpec (s : String) : String :=
  String.mk (s.data.flatMap fun c =>
    if c = bslash then [bslash, bslash]
    else if c = squote then [bslash, squote]
    else [c])

/-- The f-string of `_childByName`:
`f"trashed=False and name='{_Escape(childName)}' and '{parentId}' in parents"`. -/
def childQuery (parentId childName : String) : String :=
  "trashed=False and name='" ++ escapeName childName ++ "' and '" ++ parentId ++ "' in parents"

/-- The f-string of `_childrenById`: `f"trashed=False and '{parentId}' in parents"`. -/
def childrenQuery (parentId : String) : String :=
  "trashed=False and '" ++ parentId ++ "' in parents"

/-- One response of the backend's paginated `files().list` endpoint: the
page's records and, when more pages remain, an opaque continuation token
(modelled as the remaining pages themselves). -/
structure PageResponse where
  files : List Metadata
  nextPageToken : Option (List (List Metadata))

/-- The backend's `files().list` call: serves the first of the given pages
and a `nextPageToken` exactly when further pages remain. -/
def listFiles : List (List Metadata) → PageResponse
  | [] => { files := [], nextPageToken := none }
  | p :: rest => { files := p, nextPageToken := if rest.isEmpty then none else some rest }

/-- `_fileQuery`: issue the list call, then
`while 'nextPageToken' in response:` fetch the next page and
`result.extend(response['files'])`; all pages are concatenated before
returning. The recursion consumes the token (the remaining pages). -/
def fileQuery : List (List Metadata) → List Metadata
  | [] => []
  | p :: rest => if rest.isEmpty then p else p ++ fileQuery rest

/-- The backend oracle: for each query string, how `files().list` paginates
its matches; plus `files().get` by id. -/
structure Backend where
  listPages : String → List (List Metadata)
  getById : String → Option Metadata

/-- A fully drained query against a backend: `self._fileQuery(query)`. -/
def Backend.query (b : Backend) (q : String) : List Metadata :=
  fileQuery (b.listPages q)

/-- `_childrenById(parentId)`. -/
def childrenById (b : Backend) (parentId : String) : List Metadata :=
  b.query (childrenQuery parentId)

/-- The `if not parentId: parentId = 'root'` default at the top of
`_childByName`: `None` and the empty string are falsy. -/
def effParentId : Option String → String
  | none => "root"
  | some s => if s = "" then "root" else s

/-- `_childByName`: a single scoped query; more than one match raises
`RuntimeError`, one match is returned, none yields `None`. -/
def childByName (b : Backend) (parentId : Option String) (childName : String) :
    Except DriveErr (Option Metadata) :=
  let pid := effParentId parentId
  let result := b.query (childQuery pid childName)
  if result.length = 0 ∨ result.length = 1 then
    .ok (if result.length = 1 then result.head? else none)
  else
    .error .runtimeError

/-- Constructor arguments of `GoogleDriveFS.__init__` that path resolution
reads: the optional alternate root and shared-drive ids. -/
structure DriveFS where
  rootId : Option String := none
  driveId : Option String := none
  deriving DecidableEq, Repr

/-- `self.retryCount = 3` set in `__init__`. -/
def retryCount : Nat := 3

/-- The walk of `_itemsFromPath`'s `for childName in ipath:` loop, started
at the given parent id: the chain of resolved records for successive path
prefixes. A lookup that yields `None` breaks the loop (the chain stops
short); a `RuntimeError` propagates. -/
def resolveChain (b : Backend) : Option String → List String → Except DriveErr (List Metadata)
  | _, [] => .ok []
  | parentId, childName :: rest => do
    match ← childByName b parentId childName with
    | none => .ok []
    | some m => do
      let ms ← resolveChain b (some m.id) rest
      .ok (m :: ms)

/-- The parent id the walk would use after the given chain: the id of the
last resolved record, or the starting id when nothing was resolved yet. -/
def nextParent (start : Option String) : List Metadata → Option String
  | [] => start
  | m :: tl => nextParent (some m.id) tl

/-- The `pathIdMap` of `_itemsFromPath`, keyed by prefix length: entry 0 is
the record stored under `'/'`, entry `k` (k ≥ 1) the record of the path's
first `k` segments, present only when the walk reached that deep. -/
structure ResolvedPath where
  rootMeta : Metadata
  chain : List Metadata
  deriving DecidableEq, Repr

/-- `pathIdMap.get(prefix)` for the prefix of the first `k` segments. -/
def ResolvedPath.entryAt (r : ResolvedPath) (k : Nat) : Option Metadata :=
  if k = 0 then some r.rootMeta else r.chain.get? (k - 1)

/-- `_itemsFromPath(path)`: seed the map with `'/' → _rootMetadata`; with a
`rootId`, fetch that record first (returning the seed map untouched when
the fetch yields nothing) and store it under `'/'`; then walk the
segments. -/
def itemsFromPath (fs : DriveFS) (b : Backend) (segs : List String) :
    Except DriveErr ResolvedPath :=
  match fs.rootId with
  | none => do
    let chain ← resolveChain b none segs
    .ok { rootMeta := rootMetadata, chain := chain }
  | some rid =>
    match b.getById rid with
    | none => .ok { rootMeta := rootMetadata, chain := [] }
    | some rm => do
      let chain ← resolveChain b (some rid) segs
      .ok { rootMeta := rm, chain := chain }

/-- `_itemFromPath(path)`: `self._itemsFromPath(path).get(path)`. -/
def itemFromPath (fs : DriveFS) (b : Backend) (segs : List String) :
    Except DriveErr (Option Metadata) := do
  let r ← itemsFromPath fs b segs
  .ok (r.entryAt segs.length)

/-- The `basic` namespace of the projected info record. -/
structure InfoBasic where
  name : String
  is_dir : Bool
  deriving DecidableEq, Repr

/-- A `fs.enums.ResourceType` value as `_InfoFromMetadata` chooses it. -/
inductive RType where
  | directory
  | file
  deriving DecidableEq, Repr

/-- The `details` namespace. Timestamps stay raw RFC 3339 strings (the
source parses them with `strptime` and converts via `datetime_to_epoch`,
both outside this repository); absence is what the claims are about. -/
structure InfoDetails where
  accessed : Option String
  created : Option String
  metadata_changed : Option String
  modified : Option String
  size : Option Int
  type : RType
  deriving DecidableEq, Repr

/-- The `sharing` namespace. -/
structure InfoSharing where
  id : String
  permissions : Option (List String)
  is_shared : Bool
  deriving DecidableEq, Repr

/-- The `google` extension namespace. -/
structure InfoGoogle where
  indexableText : Option String := none
  appProperties : Option (List (String × String)) := none
  isShortcut : Bool
  deriving DecidableEq, Repr

/-- The raw info record `_InfoFromMetadata` builds. `hashes` holds the MD5
entry when the metadata carries a checksum. -/
structure Info where
  basic : InfoBasic
  details : InfoDetails
  sharing : InfoSharing
  hashes : Option String := none
  google : InfoGoogle
  deriving DecidableEq, Repr

/-- `_InfoFromMetadata(metadata)`: the pure projection from a backend
record to the filesystem info record. `isRoot` is the dict equality
`metadata == _rootMetadata`; `size` is present exactly when the record has
a `size` key; `is_shared` is `len(permissions) > 1` when a permission list
is present, else `False`. -/
def infoFromMetadata (metadata : Metadata) : Info :=
  let isRoot : Bool := metadata == rootMetadata
  let isFolder : Bool := metadata.mimeType == folderMimeType
  let permissions := metadata.permissions
  { basic := { name := if isRoot then "" else metadata.name.getD "",
               is_dir := isFolder }
    details := { accessed := none
                 created := if isRoot then none else metadata.createdTime
                 metadata_changed := none
                 modified := if isRoot then none else metadata.modifiedTime
                 size := metadata.size
                 type := if isFolder then RType.directory else RType.file }
    sharing := { id := metadata.id
                 permissions := permissions
                 is_shared := match permissions with
                   | some ps => decide (ps.length > 1)
                   | none => false }
    hashes := metadata.md5Checksum
    google := { indexableText := metadata.indexableText
                appProperties := metadata.appProperties
                isShortcut := metadata.mimeType == shortcutMimeType } }

/-- `getinfo(path)`: resolve, raise `ResourceNotFound` when the path maps
to nothing, else project the record. -/
def getinfo (fs : DriveFS) (b : Backend) (segs : List String) : Except DriveErr Info := do
  match ← itemFromPath fs b segs with
  | none => .error .resourceNotFound
  | some m => .ok (infoFromMetadata m)

/-- The fields of a parsed `fs.mode.Mode` that `openbin` and
`_UploadOnClose` read. `fs.mode` is an external library; its accessors are
modelled as plain booleans. -/
structure Mode where
  reading : Bool
  writing : Bool
  appending : Bool
  create : Bool
  exclusive : Bool
  truncate : Bool
  deriving DecidableEq, Repr

/-- `openbin(path, mode)`: the checks in source order — exclusive create on
an existing object, read of a missing object without create, a folder at
the path, then a missing parent directory when writing. On success the
handle is built from the resolved item and parent (`thisMetadata`,
`parentMetadata`). -/
def openbin (fs : DriveFS) (b : Backend) (segs : List String) (mode : Mode) :
    Except DriveErr (Option Metadata × Option Metadata) := do
  let r ← itemsFromPath fs b segs
  let item := r.entryAt segs.length
  if mode.exclusive && item.isSome then
    .error .fileExists
  else if mode.reading && !mode.create && item.isNone then
    .error .resourceNotFound
  else if item.any isFolder then
    .error .fileExpected
  else
    let parentDirItem := r.entryAt (segs.length - 1)
    if mode.writing && parentDirItem.isNone then
      .error .resourceNotFound
    else
      .ok (item, parentDirItem)

/-- `remove(path)`: the `path == '/'` guard precedes the lock and every
backend access; then missing targets raise `ResourceNotFound` and folders
`FileExpected`, else the object is deleted. -/
def removeOp (fs : DriveFS) (b : Backend) (segs : List String) : Except DriveErr Unit :=
  if segs.isEmpty then .error .removeRootError
  else do
    match ← itemFromPath fs b segs with
    | none => .error .resourceNotFound
    | some m =>
      if m.mimeType == folderMimeType then .error .fileExpected
      else .ok ()

/-- `removedir(path)`: the `path == '/'` guard first; then missing targets,
non-folders, and non-empty folders are rejected before the delete. -/
def removedirOp (fs : DriveFS) (b : Backend) (segs : List String) : Except DriveErr Unit :=
  if segs.isEmpty then .error .removeRootError
  else do
    match ← itemFromPath fs b segs with
    | none => .error .resourceNotFound
    | some m =>
      if !(m.mimeType == folderMimeType) then .error .directoryExpected
      else if (childrenById b m.id).length > 0 then .error .directoryNotEmpty
      else .ok ()

/-- `move(src_path, dst_path, overwrite)`: the checks in source order —
the destination is resolved first and `DestinationExists` raised when it
exists without `overwrite`; only then are the source parent, the source,
its type and the destination parent examined. -/
def moveOp (fs : DriveFS) (b : Backend) (src dst : List String) (overwrite : Bool) :
    Except DriveErr Unit := do
  let dstItem ← itemFromPath fs b dst
  if !overwrite && dstItem.isSome then
    .error .destinationExists
  else do
    match ← itemFromPath fs b src.dropLast with
    | none => .error .resourceNotFound
    | some _ => do
      match ← itemFromPath fs b src with
      | none => .error .resourceNotFound
      | some sm =>
        if sm.mimeType == folderMimeType then .error .fileExpected
        else do
          match ← itemFromPath fs b dst.dropLast with
          | none => .error .resourceNotFound
          | some _ => .ok ()

/-- The media object handed to the upload request in
`_UploadOnClose.close`: `MediaFileUpload(self.localPath, resumable=True)`
for non-empty content, `MediaIoBaseUpload(fh, ..., chunksize=-1,
resumable=False)` for empty content. -/
inductive UploadMedia where
  | mediaFileUpload (resumable : Bool)
  | mediaIoBase (chunksize : Int) (resumable : Bool)
  deriving DecidableEq, Repr

def UploadMedia.resumableFlag : UploadMedia → Bool
  | .mediaFileUpload r => r
  | .mediaIoBase _ r => r

/-- The one backend write `close` issues when the handle was opened for
writing: `files().create` (no remote object existed) or `files().update`,
with its media object and payload, and whether it runs through the
`request.next_chunk()` polling loop or a direct `execute`. -/
structure UploadCall where
  isCreate : Bool
  media : UploadMedia
  payload : List Nat
  viaNextChunkLoop : Bool
  deriving DecidableEq, Repr

deriving instance DecidableEq for Except

/-- What `_UploadOnClose.close` leaves behind: the propagated outcome, the
upload it issued (if any), and whether `remove(self.localPath)` ran. -/
structure CloseOutcome where
  result : Except DriveErr Unit
  upload : Option UploadCall
  scratchRemoved : Bool
  deriving DecidableEq, Repr

/-- `_UploadOnClose.close`, with the backend's response to the upload as an
oracle. When the mode was not a writing one, no upload happens and the
scratch file is removed. When it was, the upload request is built from the
read-back scratch content (`resumable=True` media and the chunk loop for
non-empty content, a `chunksize=-1, resumable=False` media executed
directly for empty content, create vs update by whether `thisMetadata` is
`None`); a raised backend error propagates out of `close` before the
`remove(self.localPath)` statement is reached, so the scratch file then
stays behind. -/
def closeHandle (parsedMode : Mode) (thisMetadata : Option Metadata)
    (dataToWrite : List Nat) (uploadOutcome : Except DriveErr Unit) : CloseOutcome :=
  if parsedMode.writing then
    let call : UploadCall :=
      if dataToWrite.length > 0 then
        { isCreate := thisMetadata.isNone, media := .mediaFileUpload true,
          payload := dataToWrite, viaNextChunkLoop := true }
      else
        { isCreate := thisMetadata.isNone, media := .mediaIoBase (-1) false,
          payload := dataToWrite, viaNextChunkLoop := false }
    match uploadOutcome with
    | .error e => { result := .error e, upload := some call, scratchRemoved := false }
    | .ok _ => { result := .ok (), upload := some call, scratchRemoved := true }
  else
    { result := .ok (), upload := none, scratchRemoved := true }

/-- Every backend call site of googledrivefs.py, one constructor per
`execute`/`next_chunk` call: the two list calls of `_fileQuery`, the root
fetch of `_itemsFromPath`, the update of `setinfo`, the permission create
of `share`, the folder create of `_createSubdirectory`, the download chunk
calls of `_download_request`, the chunk loop and the two empty-content
calls of `_UploadOnClose.close`, the deletes of `remove` and `removedir`,
the delete and copy of `copy`, the delete and update of `move`, and the
create of `add_shortcut`. -/
inductive BackendCallSite where
  | fileQueryFirstList
  | fileQueryNextList
  | itemsFromPathRootGet
  | setinfoUpdate
  | sharePermissionCreate
  | createSubdirectoryCreate
  | downloadNextChunk
  | uploadNonEmptyNextChunk
  | uploadEmptyCreate
  | uploadEmptyUpdate
  | removeDelete
  | removedirDelete
  | copyDelete
  | copyCopy
  | moveDelete
  | moveUpdate
  | addShortcutCreate
  deriving DecidableEq, Repr

/-- The `num_retries` argument each call site passes: `some retryCount`
where the source writes `num_retries=self.retryCount`, `none` where the
call is executed bare (`.execute()` on the root fetch of `_itemsFromPath`,
`request.next_chunk()` in the non-empty upload loop of `close`). -/
def numRetriesArg : BackendCallSite → Option Nat
  | .fileQueryFirstList => some retryCount
  | .fileQueryNextList => some retryCount
  | .itemsFromPathRootGet => none
  | .setinfoUpdate => some retryCount
  | .sharePermissionCreate => some retryCount
  | .createSubdirectoryCreate => some retryCount
  | .downloadNextChunk => some retryCount
  | .uploadNonEmptyNextChunk => none
  | .uploadEmptyCreate => some retryCount
  | .uploadEmptyUpdate => some retryCount
  | .removeDelete => some retryCount
  | .removedirDelete => some retryCount
  | .copyDelete => some retryCount
  | .copyCopy => some retryCount
  | .moveDelete => some retryCount
  | .moveUpdate => some retryCount
  | .addShortcutCreate => some retryCount

/-! Concrete fixtures used by witnesses and counterexamples. -/

def fileMeta : Metadata := { id := "f1", mimeType := "text/plain", name := some "d" }

def fileMeta2 : Metadata := { id := "f2", mimeType := "text/plain", name := some "d" }

def gdFS : DriveFS := {}

def emptyBackend : Backend := { listPages := fun _ => [], getById := fun _ => none }

def dupBackend : Backend := { listPages := fun _ => [[fileMeta, fileMeta2]], getById := fun _ => none }

def oneFileBackend : Backend :=
  { listPages := fun q => if q = childQuery "root" "d" then [[fileMeta]] else [],
    getById := fun _ => none }

/-- The parsed mode `Mode('w')`. -/
def writeMode : Mode :=
  { reading := false, writing := true, appending := false, create := true,
    exclusive := false, truncate := true }

/-- The parsed mode `Mode('r')`. -/
def readMode : Mode :=
  { reading := true, writing := false, appending := false, create := false,
    exclusive := false, truncate := false }

/-- The parsed mode `Mode('x')`. -/
def exclusiveMode : Mode :=
  { reading := false, writing := true, appending := false, create := true,
    exclusive := true, truncate := true }

/-! Helper lemmas. -/

@[simp]
theorem driveOk_bind {α β : Type} (a : α) (f : α → Except DriveErr β) :
    (Except.ok a : Except DriveErr α) >>= f = f a := rfl

@[simp]
theorem driveError_bind {α β : Type} (e : DriveErr) (f : α → Except DriveErr β) :
    (Except.error e : Except DriveErr α) >>= f = .error e := rfl

theorem fileQuery_eq_join (pages : List (List Metadata)) : fileQuery pages = pages.flatten := by
  induction pages with
  | nil => rfl
  | cons p rest ih =>
    cases rest with
    | nil => simp [fileQuery]
    | cons q rs => simpa [fileQuery] using ih

theorem pyReplaceChar_append (c : Char) (r : List Char) (l₁ l₂ : List Char) :
    pyReplaceChar c r (l₁ ++ l₂) = pyReplaceChar c r l₁ ++ pyReplaceChar c r l₂ := by
  induction l₁ with
  | nil => rfl
  | cons x xs ih => simp [pyReplaceChar, ih, List.append_assoc]

theorem escape_chars_eq (l : List Char) :
    pyReplaceChar squote [bslash, squote] (pyReplaceChar bslash [bslash, bslash] l) =
      l.flatMap (fun c =>
        if c = bslash then [bslash, bslash]
        else if c = squote then [bslash, squote]
        else [c]) := by
  induction l with
  | nil => rfl
  | cons x xs ih =>
    by_cases hb : x = bslash
    · subst hb
      simp [pyReplaceChar, pyReplaceChar_append, ih,
        show bslash ≠ squote by decide]
    · by_cases hq : x = squote
      · subst hq
        simp [pyReplaceChar, pyReplaceChar_append, ih, hb,
          show ¬ squote = bslash by decide]
      · simp [pyReplaceChar, pyReplaceChar_append, ih, hb, hq]

theorem resolveChain_cons (b : Backend) (p : Option String) (s : String) (rest : List String) :
    resolveChain b p (s :: rest) =
      childByName b p s >>= fun x =>
        match x with
        | none => .ok []
        | some m => resolveChain b (some m.id) rest >>= fun ms => .ok (m :: ms) := rfl

theorem resolveChain_append (b : Backend) (xs : List String) :
    ∀ (pre : List String) (p : Option String) (chain : List Metadata),
      resolveChain b p pre = .ok chain → chain.length = pre.length →
      resolveChain b p (pre ++ xs) =
        (chain ++ ·) <$> resolveChain b (nextParent p chain) xs := by
  intro pre
  induction pre with
  | nil =>
    intro p chain h _
    have hc : chain = [] := by
      have : (Except.ok [] : Except DriveErr (List Metadata)) = .ok chain := h
      simpa using this.symm
    subst hc
    cases hv : resolveChain b p xs <;> simp [nextParent, hv, Except.map]
  | cons s pre ih =>
    intro p chain h hl
    rw [resolveChain_cons] at h
    cases hc : childByName b p s with
    | error e => rw [hc] at h; simp at h
    | ok o =>
      rw [hc] at h
      cases o with
      | none =>
        simp at h
        subst h
        simp at hl
      | some m =>
        simp only [driveOk_bind] at h
        cases hr : resolveChain b (some m.id) pre with
        | error e => rw [hr] at h; simp at h
        | ok tl =>
          rw [hr] at h
          simp at h
          subst h
          have hl' : tl.length = pre.length := by simpa using hl
          have := ih (some m.id) tl hr hl'
          show resolveChain b p (s :: (pre ++ xs)) = _
          rw [resolveChain_cons, hc, driveOk_bind]
          simp only [this, nextParent]
          cases hv : resolveChain b (nextParent (some m.id) tl) xs <;>
            simp [Except.map, hv]

theorem entryAt_succ_none (r : ResolvedPath) (k : Nat) (h : r.entryAt (k + 1) = none) :
    r.entryAt (k + 2) = none := by
  unfold ResolvedPath.entryAt at h ⊢
  simp at h ⊢
  omega

/-! Claim theorems. -/

/-- C1: a child lookup with more than one backend match raises the
internal-consistency `RuntimeError`; exactly one match is returned as the
result; and when a segment's lookup comes back empty, the walk of
`_itemsFromPath` stops there, so `getinfo` on any path extending that
missing segment reports `ResourceNotFound`. -/
theorem childLookup_resolution :
    (∀ (b : Backend) (p : Option String) (n : String),
        1 < (b.query (childQuery (effParentId p) n)).length →
        childByName b p n = .error .runtimeError)
    ∧ (∀ (b : Backend) (p : Option String) (n : String) (m : Metadata),
        b.query (childQuery (effParentId p) n) = [m] →
        childByName b p n = .ok (some m))
    ∧ (∀ (b : Backend) (p : Option String) (n : String),
        b.query (childQuery (effParentId p) n) = [] →
        childByName b p n = .ok none)
    ∧ (∀ (b : Backend) (pre : List String) (nm : String) (rest : List String)
        (chain : List Metadata),
        resolveChain b none pre = .ok chain →
        chain.length = pre.length →
        childByName b (nextParent none chain) nm = .ok none →
        getinfo { rootId := none, driveId := none } b (pre ++ nm :: rest) =
          .error .resourceNotFound) := by
  refine ⟨?_, ?_, ?_, ?_⟩
  · intro b p n h
    simp only [childByName]
    rw [if_neg]
    rintro (h0 | h1) <;> omega
  · intro b p n m h
    simp [childByName, h]
  · intro b p n h
    simp [childByName, h]
  · intro b pre nm rest chain hres hlen hchild
    have happ := resolveChain_append b (nm :: rest) pre none chain hres hlen
    have h2 : resolveChain b (nextParent none chain) (nm :: rest) = .ok [] := by
      rw [resolveChain_cons, hchild, driveOk_bind]
    rw [h2] at happ
    simp [Except.map] at happ
    have h3 : itemsFromPath { rootId := none, driveId := none } b (pre ++ nm :: rest) =
        .ok { rootMeta := rootMetadata, chain := chain } := by
      simp [itemsFromPath, happ]
    have h4 : ResolvedPath.entryAt { rootMeta := rootMetadata, chain := chain }
        (pre.length + (rest.length + 1)) = none := by
      unfold ResolvedPath.entryAt
      rw [if_neg (by omega)]
      refine List.get?_eq_none.mpr ?_
      simp only [ResolvedPath.chain]
      omega
    simp [getinfo, itemFromPath, h3, h4]

/-- C1 witness: with a backend answering every query with two records the
lookup raises the consistency error, and with an empty backend the path
a/b resolves to nothing and `getinfo` reports not-found. -/
theorem childLookup_resolution_witness :
    childByName dupBackend none "x" = .error .runtimeError
    ∧ getinfo { rootId := none, driveId := none } emptyBackend (["a"] ++ "b" :: []) =
        .error .resourceNotFound :=
  ⟨childLookup_resolution.1 dupBackend none "x" (by decide),
   childLookup_resolution.2.2.2 emptyBackend [] "a" ["b"] [] rfl rfl rfl⟩

/-- C2 (amended): closing a write handle deletes the scratch file when the
close sequence completes without error, whether or not an upload occurred;
but when the backend upload raises, the error propagates out of `close`
before `remove(self.localPath)` runs, so the scratch file is then NOT
removed. -/
theorem close_scratch_cleanup (m : Mode) (t : Option Metadata) (d : List Nat) (e : DriveErr) :
    (closeHandle m t d (.ok ())).scratchRemoved = true
    ∧ (closeHandle m t d (.error e)).result =
        (if m.writing then .error e else .ok ())
    ∧ (closeHandle m t d (.error e)).scratchRemoved = !m.writing := by
  cases hw : m.writing <;> simp [closeHandle, hw]

/-- C2 counterexample: a write handle whose upload fails propagates the
error but leaves the scratch file behind (`scratchRemoved = false`),
refuting the claim that the scratch file is deleted unconditionally. -/
theorem close_scratch_leak_cex :
    (closeHandle writeMode none [7] (.error .httpError)).result = .error .httpError
    ∧ (closeHandle writeMode none [7] (.error .httpError)).scratchRemoved = false :=
  ⟨rfl, rfl⟩

/-- C3: the `openbin` mode matrix, checks applied in source order:
exclusive create on an existing object fails with `FileExists`; reading
without create fails with `ResourceNotFound` when the object is absent;
writing with a missing parent directory fails with `ResourceNotFound`; and
a folder at the path (reached when the exclusive check did not fire) fails
with `FileExpected`. -/
theorem openbin_mode_matrix :
    (∀ (fs : DriveFS) (b : Backend) (segs : List String) (mode : Mode) (r : ResolvedPath),
        itemsFromPath fs b segs = .ok r → mode.exclusive = true →
        (r.entryAt segs.length).isSome = true →
        openbin fs b segs mode = .error .fileExists)
    ∧ (∀ (fs : DriveFS) (b : Backend) (segs : List String) (mode : Mode) (r : ResolvedPath),
        itemsFromPath fs b segs = .ok r → mode.reading = true → mode.create = false →
        r.entryAt segs.length = none →
        openbin fs b segs mode = .error .resourceNotFound)
    ∧ (∀ (fs : DriveFS) (b : Backend) (segs : List String) (mode : Mode) (r : ResolvedPath),
        itemsFromPath fs b segs = .ok r → mode.writing = true →
        r.entryAt (segs.length - 1) = none →
        openbin fs b segs mode = .error .resourceNotFound)
    ∧ (∀ (fs : DriveFS) (b : Backend) (segs : List String) (mode : Mode) (r : ResolvedPath)
        (it : Metadata),
        itemsFromPath fs b segs = .ok r → mode.exclusive = false →
        r.entryAt segs.length = some it → it.mimeType = folderMimeType →
        openbin fs b segs mode = .error .fileExpected) := by
  refine ⟨?_, ?_, ?_, ?_⟩
  · intro fs b segs mode r h hex hsome
    simp [openbin, h, hex, hsome]
  · intro fs b segs mode r h hread hcreate hnone
    simp [openbin, h, hread, hcreate, hnone]
  · intro fs b segs mode r h hw hparent
    have hitem : r.entryAt segs.length = none := by
      cases segs with
      | nil => simp [ResolvedPath.entryAt] at hparent
      | cons a l =>
        cases l with
        | nil => simp [ResolvedPath.entryAt] at hparent
        | cons a2 l2 =>
          have := entryAt_succ_none r l2.length (by simpa using hparent)
          simpa using this
    by_cases hrc : (mode.reading && !mode.create) = true
    · simp [openbin, h, hitem, hrc]
    · simp only [Bool.not_eq_true] at hrc
      simp [openbin, h, hitem, hrc, hw, hparent]
  · intro fs b segs mode r it h hex hsome hfold
    simp [openbin, h, hex, hsome, isFolder, hfold]

/-- C3 witness: exclusive create on an existing file raises `FileExists`;
a plain read of a missing file raises `ResourceNotFound`; a write whose
parent directory is missing raises `ResourceNotFound`. -/
theorem openbin_mode_matrix_witness :
    openbin gdFS oneFileBackend ["d"] exclusiveMode = .error .fileExists
    ∧ openbin gdFS emptyBackend ["x"] readMode = .error .resourceNotFound
    ∧ openbin gdFS emptyBackend ["p", "x"] writeMode = .error .resourceNotFound :=
  ⟨openbin_mode_matrix.1 gdFS oneFileBackend ["d"] exclusiveMode
      { rootMeta := rootMetadata, chain := [fileMeta] } rfl rfl rfl,
   openbin_mode_matrix.2.1 gdFS emptyBackend ["x"] readMode
      { rootMeta := rootMetadata, chain := [] } rfl rfl rfl rfl,
   openbin_mode_matrix.2.2.1 gdFS emptyBackend ["p", "x"] writeMode
      { rootMeta := rootMetadata, chain := [] } rfl rfl rfl⟩

/-- C4: `_fileQuery` drains the continuation-token loop, concatenating all
pages; `_childrenById` therefore returns the concatenation of every page
of the children query, and 101 children served in pages of 100 and 1 yield
exactly 101 entries. -/
theorem fileQuery_drains_all_pages :
    (∀ pages : List (List Metadata), fileQuery pages = pages.flatten)
    ∧ (∀ (b : Backend) (parentId : String),
        childrenById b parentId = (b.listPages (childrenQuery parentId)).flatten)
    ∧ (∀ m : Metadata, (fileQuery [List.replicate 100 m, [m]]).length = 101) :=
  ⟨fileQuery_eq_join,
   fun b parentId => fileQuery_eq_join (b.listPages (childrenQuery parentId)),
   fun m => by simp [fileQuery_eq_join]⟩

/-- C5 (amended): closing a write handle whose final content is empty
issues a zero-byte `files().create` (no remote object) or `files().update`
(object exists) through a NON-resumable `MediaIoBaseUpload` with
`chunksize=-1, resumable=False`, executed directly rather than through the
resumable chunk loop used for non-empty content. -/
theorem empty_upload_nonresumable (m : Mode) (t : Option Metadata)
    (u : Except DriveErr Unit) (hw : m.writing = true) :
    (closeHandle m t [] u).upload =
      some { isCreate := t.isNone, media := .mediaIoBase (-1) false,
             payload := [], viaNextChunkLoop := false } := by
  cases u <;> simp [closeHandle, hw]

/-- C5 witness: an empty update of an existing file goes through the
non-resumable media object. -/
theorem empty_upload_nonresumable_witness :
    (closeHandle writeMode (some fileMeta) [] (.ok ())).upload =
      some { isCreate := false, media := .mediaIoBase (-1) false,
             payload := [], viaNextChunkLoop := false } :=
  empty_upload_nonresumable writeMode (some fileMeta) (.ok ()) rfl

/-- C5 counterexample: the upload call for empty content carries
`resumable=False` (while non-empty content does use a resumable upload),
refuting the claim that the zero-byte path uses a resumable upload. -/
theorem empty_upload_resumable_cex :
    ((closeHandle writeMode none [] (.ok ())).upload.map
      fun c => c.media.resumableFlag) = some false
    ∧ ((closeHandle writeMode none [7] (.ok ())).upload.map
      fun c => c.media.resumableFlag) = some true :=
  ⟨rfl, rfl⟩

/-- C6: `remove` and `removedir` on the root path fail with
`RemoveRootError` for every backend whatsoever — the guard precedes the
lock and any backend access, so the result is independent of backend
state. -/
theorem remove_root_always_fails :
    ∀ (fs : DriveFS) (b : Backend),
      removeOp fs b [] = .error .removeRootError
      ∧ removedirOp fs b [] = .error .removeRootError :=
  fun _ _ => ⟨rfl, rfl⟩

/-- C7: the projected info record's size equals the record's reported size
(present exactly when the record reports one, so folders and native
documents, which report none, project absent rather than zero), and
`is_shared` holds exactly when a permission list is present with more than
one entry, and is false when the list is absent. -/
theorem info_size_and_sharing_projection (m : Metadata) :
    (infoFromMetadata m).details.size = m.size
    ∧ ((infoFromMetadata m).details.size.isSome = m.size.isSome)
    ∧ ((infoFromMetadata m).sharing.is_shared = true ↔
        ∃ ps, m.permissions = some ps ∧ 1 < ps.length)
    ∧ (m.permissions = none → (infoFromMetadata m).sharing.is_shared = false) := by
  refine ⟨rfl, rfl, ?_, ?_⟩
  · cases hp : m.permissions with
    | none => simp [infoFromMetadata, hp]
    | some ps => simp [infoFromMetadata, hp]
  · intro hp
    simp [infoFromMetadata, hp]

/-- C8: the sequential-replace `_Escape` (double every backslash, then
escape every single quote) agrees with the character-wise escape the spec
describes, and every child-lookup query string is exactly the fixed
template with the escaped name and the parent id substituted in. -/
theorem childQuery_template_and_escape :
    (∀ s : String, escapeName s = escapeSpec s)
    ∧ (∀ parentId childName : String,
        childQuery parentId childName =
          "trashed=False and name='" ++ escapeSpec childName ++ "' and '"
            ++ parentId ++ "' in parents") := by
  have h : ∀ s : String, escapeName s = escapeSpec s := fun s =>
    congrArg String.mk (escape_chars_eq s.data)
  exact ⟨h, fun parentId childName => by rw [childQuery, h]⟩

/-- C9 (amended): the fixed instance-wide retry count (3) is passed as
`num_retries` to every backend call site except two, which execute bare:
the root-metadata fetch of `_itemsFromPath` and the `next_chunk` polling
loop of the non-empty upload in `close`. -/
theorem retries_not_uniform_amended :
    (∀ c : BackendCallSite,
        c ≠ BackendCallSite.itemsFromPathRootGet →
        c ≠ BackendCallSite.uploadNonEmptyNextChunk →
        numRetriesArg c = some retryCount)
    ∧ numRetriesArg BackendCallSite.itemsFromPathRootGet = none
    ∧ numRetriesArg BackendCallSite.uploadNonEmptyNextChunk = none := by
  refine ⟨?_, rfl, rfl⟩
  intro c h1 h2
  cases c <;> first
    | rfl
    | exact absurd rfl h1
    | exact absurd rfl h2

/-- C9 counterexample: two call sites pass no retry count at all, so
retries are not applied uniformly with count 3 to every backend call. -/
theorem retries_cex :
    numRetriesArg BackendCallSite.itemsFromPathRootGet ≠ some retryCount
    ∧ numRetriesArg BackendCallSite.uploadNonEmptyNextChunk ≠ some retryCount
    ∧ ¬ (∀ c : BackendCallSite, numRetriesArg c = some retryCount) :=
  ⟨by decide, by decide,
   fun h => absurd (h BackendCallSite.itemsFromPathRootGet) (by decide)⟩

/-- C10: in `move` with `overwrite=False`, the destination is resolved and
checked first, so an existing destination raises `DestinationExists`
before the source (its existence, its type, or its parent) is ever
examined — for every source path and source state. -/
theorem move_destinationExists_precedence (fs : DriveFS) (b : Backend)
    (src dst : List String) (d : Metadata)
    (hd : itemFromPath fs b dst = .ok (some d)) :
    moveOp fs b src dst false = .error .destinationExists := by
  unfold moveOp
  rw [hd]
  rfl

/-- C10 witness: with a backend holding only the destination file, moving
a non-existent source onto it reports `DestinationExists`, not the
source's `ResourceNotFound`. -/
theorem move_destinationExists_witness :
    itemFromPath gdFS oneFileBackend ["s"] = .ok none
    ∧ moveOp gdFS oneFileBackend ["s"] ["d"] false = .error .destinationExists :=
  ⟨rfl, move_destinationExists_precedence gdFS oneFileBackend ["s"] ["d"] fileMeta rfl⟩
